import Mathlib

/-!
Verification development for the CubicControl-Launcher repository.

Shallow embedding of the core lifecycle logic:
* `src/src/minecraft/server_properties.py` — key=value upsert on properties files;
* `src/src/config/caddy_handler.py` — startup-log failure classification;
* `src/src/controller/server_controller.py` — inactivity controller;
* `src/src/interface/server_profiles.py` — profile record fields;
* `src/src/interface/control_panel.py` — single-instance guard, status
  state machine and the public start/stop/restart routes.

Strings are modelled through their character lists; the Python string
primitives used by the source (`strip`, `startswith`, `split('=', 1)`,
`lower`, substring membership) are re-implemented below as total
executable functions so that every theorem can be checked by evaluation.
-/

/-- Characters Python's `str.strip()` removes (ASCII whitespace). -/
def isPySpace (c : Char) : Bool :=
  c == ' ' || c == '\t' || c == '\n' || c == '\r' || c == '\x0b' || c == '\x0c'

/-- Python `str.strip()` on the character list. -/
def pyStripChars (cs : List Char) : List Char :=
  ((cs.dropWhile isPySpace).reverse.dropWhile isPySpace).reverse

/-- Python `str.strip()`. -/
def pyStrip (s : String) : String :=
  String.mk (pyStripChars s.data)

/-- Python `str.startswith(prefixStr)` restricted to a single character,
which is the only form the source uses (`startswith('#')`). -/
def pyStartsWithChar (s : String) (c : Char) : Bool :=
  match s.data with
  | [] => false
  | c0 :: _ => c0 == c

/-- Python `str.endswith('\n')`, the only `endswith` the source uses. -/
def pyEndsWithNewline (s : String) : Bool :=
  s.data.getLast? == some '\n'

/-- `needle` occurs at the head of `hay`. -/
def charsStartWith : List Char → List Char → Bool
  | _, [] => true
  | [], _ :: _ => false
  | h :: hs, n :: ns => h == n && charsStartWith hs ns

/-- `needle` occurs somewhere inside `hay`. -/
def charsContain (hay needle : List Char) : Bool :=
  match hay with
  | [] => needle.isEmpty
  | _ :: hs => charsStartWith hay needle || charsContain hs needle

/-- Python's substring test `needle in hay`. -/
def pyIn (needle hay : String) : Bool :=
  charsContain hay.data needle.data

/-- Python `'=' in s`. -/
def pyHasEq (s : String) : Bool :=
  s.data.any (fun c => c == '=')

/-- The part of `s` before the first `'='` (first component of
Python's `s.split('=', 1)`). -/
def pyBeforeEq (s : String) : String :=
  String.mk (s.data.takeWhile (fun c => c != '='))

/-- ASCII lower-casing of one character (the log lines and markers the
source compares are ASCII, where Python `str.lower()` agrees). -/
def pyLowerChar (c : Char) : Char :=
  if 'A' ≤ c && c ≤ 'Z' then Char.ofNat (c.toNat + 32) else c

/-- Python `str.lower()` on ASCII text. -/
def pyLower (s : String) : String :=
  String.mk (s.data.map pyLowerChar)

/-- Python `s.drop` of the first character, `stripped[1:]`. -/
def pyDropFirst (s : String) : String :=
  String.mk s.data.tail

/-!
## `src/src/minecraft/server_properties.py`

A properties file is represented by the list of lines Python's
`readlines()` yields: every line carries its trailing `'\n'` except
possibly the last one.
-/

/-- `parse_key_value_from_line` (server_properties.py:32-41): returns the
parsed key (or `none`) and whether the line was commented. -/
def parse_key_value_from_line (line : String) : Option String × Bool :=
  let stripped := pyStrip line
  if stripped.data.isEmpty then (none, false)
  else
    let isCommented := pyStartsWithChar stripped '#'
    let content := if isCommented then pyStrip (pyDropFirst stripped) else stripped
    if pyHasEq content then (some (pyStrip (pyBeforeEq content)), isCommented)
    else (none, isCommented)

/-- Remove the entry for `k` from the dict `m` and return its value
(Python `remaining.pop(key)`; dicts keep the order of the survivors). -/
def popKey (k : String) : List (String × String) → Option (String × List (String × String))
  | [] => none
  | (k0, v0) :: rest =>
    if k0 == k then some (v0, rest)
    else
      match popKey k rest with
      | some (v, rest') => some (v, (k0, v0) :: rest')
      | none => none

/-- The line `f"{key}={new_val}\n"` written for an updated key. -/
def updatedLine (k v : String) : String :=
  k ++ "=" ++ v ++ "\n"

/-- The rewrite loop of `write_server_properties` (server_properties.py:55-63):
walk the lines, replacing the first line whose parsed key is still pending
an update, and return the rewritten lines with the updates left over. -/
def writeLoop : List String → List (String × String) → List String × List (String × String)
  | [], remaining => ([], remaining)
  | line :: rest, remaining =>
    match (parse_key_value_from_line line).1 with
    | none =>
      let (out, rem) := writeLoop rest remaining
      (line :: out, rem)
    | some k =>
      match popKey k remaining with
      | some (v, remaining') =>
        let (out, rem) := writeLoop rest remaining'
        (updatedLine k v :: out, rem)
      | none =>
        let (out, rem) := writeLoop rest remaining
        (line :: out, rem)

/-- `if output_lines and not output_lines[-1].endswith('\n'): output_lines[-1] += '\n'`
(server_properties.py:66-67). -/
def ensureTrailingNewline : List String → List String
  | [] => []
  | [l] => if pyEndsWithNewline l then [l] else [l ++ "\n"]
  | l :: ls => l :: ensureTrailingNewline ls

/-- The comment header inserted before appended keys (server_properties.py:68). -/
def autoHeader : String := "# Automatically added/updated by setup tool\n"

/-- `write_server_properties` (server_properties.py:43-73) on the lines of
the existing file and the `new_values` dict (as an association list in
dict insertion order): rewrite matching lines in place, then append the
keys that were never found after a comment header, fixing a missing final
newline first. -/
def write_server_properties (lines : List String) (new_values : List (String × String)) :
    List String :=
  let (out, remaining) := writeLoop lines new_values
  if remaining.isEmpty then out
  else
    ensureTrailingNewline out ++
      autoHeader :: remaining.map (fun kv => updatedLine kv.1 kv.2)

/-!
## `src/src/config/caddy_handler.py`

The startup probe tails the sidecar log for a bounded window.  Its effect
on the recorded diagnostics depends only on the list of log lines the
probe reads within the window and on the observed exit code, so it is
embedded as a pure function of those.
-/

/-- `CADDY_PROXY_TARGET` (caddy_handler.py:22). -/
def CADDY_PROXY_TARGET : String := "127.0.0.1:38000"

/-- The connection-error markers of `_is_warmup_proxy_error`
(caddy_handler.py:243-249). -/
def warmup_markers : List String :=
  ["reverseproxy.statuserror", "dial tcp", "connectex", "connection refused",
   "\"status\":502"]

/-- The local-upstream markers of `_is_warmup_proxy_error`
(caddy_handler.py:250-254). -/
def target_markers : List String :=
  [pyLower CADDY_PROXY_TARGET, "127.0.0.1:38000", "localhost:38000"]

/-- `_is_warmup_proxy_error` (caddy_handler.py:240-257): the line is an
expected warm-up error exactly when it carries a connection-error marker
and names the local upstream. -/
def is_warmup_proxy_error (line : String) : Bool :=
  let lower := pyLower line
  if !(warmup_markers.any (fun m => pyIn m lower)) then false
  else target_markers.any (fun t => pyIn t lower)

/-- The failure markers of `_probe_startup` (caddy_handler.py:440-447). -/
def failure_markers : List String :=
  ["error", "failed", "authorization failed", "failed authorizations",
   "could not get certificate", "rateLimited"]

/-- One iteration of the classification in `_probe_startup`
(caddy_handler.py:458-463 and 472-477): a line is recorded as a failure
when its lower-casing carries a failure marker and is not a warm-up proxy
error. -/
def line_flags_failure (line : String) : Bool :=
  let lower := pyLower line
  failure_markers.any (fun m => pyIn m lower) && !(is_warmup_proxy_error lower)

/-- The failure lines `_probe_startup` accumulates over the lines it read. -/
def probe_failure_lines (lines : List String) : List String :=
  lines.filter line_flags_failure

/-- `self._last_start_errors = failure_lines[-5:]` (caddy_handler.py:480). -/
def last_start_errors (lines : List String) : List String :=
  let fl := probe_failure_lines lines
  fl.drop (fl.length - 5)

/-- `self._last_start_had_failure = bool(self._last_start_errors or
(exit_code not in (None, 0)))` (caddy_handler.py:482). -/
def probe_had_failure (lines : List String) (exitCode : Option Int) : Bool :=
  !(last_start_errors lines).isEmpty ||
    (match exitCode with
     | none => false
     | some c => c != 0)

/-!
## `src/src/controller/server_controller.py`

`check_inactivity_and_shutdown` mutates the controller fields
`last_active_time`, `inactivity_shutdown_triggered` and
`last_player_count`, and triggers external actions; the embedding keeps
those fields in `CtrlState` and reports the actions as events.
`time.time()` is passed in as `now` (epoch seconds).
-/

structure CtrlState where
  last_active_time : Nat
  inactivity_shutdown_triggered : Bool
  last_player_count : Nat
deriving DecidableEq, Repr

inductive CtrlEvent where
  /-- `stop_minecraft_server()` — the RCON control-protocol "stop" command
  (server_controller.py:98-106). -/
  | stopServer
  /-- `_schedule_sleep_after_exit()` (server_controller.py:135-137). -/
  | sleepPC
  /-- `_schedule_app_termination()` — the shutdown-callback path
  (server_controller.py:140-143). -/
  | shutdownApp
deriving DecidableEq, Repr

/-- The idle-timeout half of `check_inactivity_and_shutdown`
(server_controller.py:121-147), reached when no players are online
(`player_count` is `some 0`, server up but empty, or `none`, query
unreachable). -/
def inactivity_check (inactivity_limit : Nat) (pc_sleep shutdown_app : Bool)
    (st : CtrlState) (now : Nat) (player_count : Option Nat) :
    CtrlState × Bool × List CtrlEvent :=
  let inactive_duration := now - st.last_active_time
  if !st.inactivity_shutdown_triggered && inactivity_limit ≤ inactive_duration then
    let stopEv := if player_count == some 0 then [CtrlEvent.stopServer] else []
    let sleepEv := if pc_sleep then [CtrlEvent.sleepPC] else []
    let shutdownEv := if shutdown_app then [CtrlEvent.shutdownApp] else []
    ({ st with inactivity_shutdown_triggered := true }, true,
      stopEv ++ sleepEv ++ shutdownEv)
  else (st, false, [])

/-- `check_inactivity_and_shutdown(player_count)` (server_controller.py:108-147).
The returned `Bool` is the function's return value (shutdown fired). -/
def check_inactivity_and_shutdown (inactivity_limit : Nat)
    (pc_sleep shutdown_app : Bool) (st : CtrlState) (now : Nat)
    (player_count : Option Nat) : CtrlState × Bool × List CtrlEvent :=
  match player_count with
  | some n =>
    if 0 < n then
      -- players online: reset the idle timer and the debounce flag;
      -- `last_player_count` is assigned only on change, to the same value
      ({ last_active_time := now, inactivity_shutdown_triggered := false,
         last_player_count := n }, false, [])
    else inactivity_check inactivity_limit pc_sleep shutdown_app st now player_count
  | none => inactivity_check inactivity_limit pc_sleep shutdown_app st now player_count

/-- The poll loop of `monitor_server` (server_controller.py:148-166)
restricted to its effect on `check_inactivity_and_shutdown`: one tick per
scripted activity sample, `polling_interval` seconds apart. -/
def run_controller (inactivity_limit : Nat) (pc_sleep shutdown_app : Bool)
    (interval : Nat) :
    CtrlState → Nat → List (Option Nat) → List (CtrlState × Bool × List CtrlEvent)
  | _, _, [] => []
  | st, now, sample :: rest =>
    let step := check_inactivity_and_shutdown inactivity_limit pc_sleep shutdown_app
      st now sample
    step :: run_controller inactivity_limit pc_sleep shutdown_app interval
      step.1 (now + interval) rest

/-!
## `src/src/interface/server_profiles.py`

The `ServerProfile` dataclass is embedded through its field-name list:
a dataclass-generated `__init__` accepts exactly the declared fields as
keyword arguments and raises `TypeError` on any other name.
-/

/-- The fields of the `ServerProfile` dataclass, in declaration order
(server_profiles.py:14-31). -/
def serverProfileFields : List String :=
  ["name", "server_path", "server_ip", "run_script", "rcon_password",
   "rcon_port", "query_port", "auth_key", "shutdown_key", "inactivity_limit",
   "polling_interval", "pc_sleep_after_inactivity", "description", "env_scope"]

/-- The keyword arguments `_profile_from_request` passes to
`ServerProfile(...)` (control_panel.py:431-446). -/
def profileFromRequestKwargs : List String :=
  ["name", "server_path", "server_ip", "run_script", "rcon_password",
   "rcon_port", "query_port", "inactivity_limit", "polling_interval",
   "pc_sleep_after_inactivity", "shutdown_app_after_inactivity",
   "description", "env_scope"]

/-- A dataclass `__init__` call succeeds only when every keyword argument
names a declared field. -/
def dataclassCallOk (fields kwargs : List String) : Bool :=
  kwargs.all (fun k => fields.contains k)

/-- `getattr(self.profile, "shutdown_app_after_inactivity", False)`
(server_controller.py:141): whether the attribute can be anything but the
`False` default is decided by the declared fields. -/
def profileHasShutdownAppField : Bool :=
  serverProfileFields.contains "shutdown_app_after_inactivity"

/-!
## `src/src/interface/control_panel.py` — single-instance guard

`_acquire_single_instance_lock` (control_panel.py:51-118) interacts with
the file system, `psutil` and the socket API; those signals form the
environment record below.
-/

structure LockEnv where
  /-- content of `minrefact_control_panel.lock`, `none` when absent -/
  lockFile : Option String
  /-- `psutil.pid_exists` -/
  pidAlive : Nat → Bool
  /-- the `msvcrt.locking`/`fcntl.flock` exclusive lock succeeds -/
  fileLockOk : Bool
  /-- binding the exclusive loopback port 38999 succeeds -/
  portBindOk : Bool
  /-- `os.getpid()` -/
  myPid : Nat

inductive AcquireResult where
  /-- lock held; `recordedPid` written into the file; `staleRemoved` says a
  pre-existing lock file was deleted first -/
  | acquired (recordedPid : Nat) (staleRemoved : Bool)
  /-- `RuntimeError("Another control panel instance is already running.")` -/
  | alreadyRunningError
  /-- the exclusive loopback bind raised `OSError` -/
  | bindError
deriving DecidableEq, Repr

/-- `int(lock_path.read_text().strip() or "0")` (control_panel.py:64);
`none` models the `ValueError` branch.  (Python `int()` also accepts a
sign, which this digits-only parse does not; a signed value names a PID
that is never alive, so both land in the same stale branch.) -/
def parseLockPid (content : String) : Option Nat :=
  let t := pyStripChars content.data
  let t := if t.isEmpty then ['0'] else t
  if t.all Char.isDigit then
    some (t.foldl (fun acc c => acc * 10 + (c.toNat - 48)) 0)
  else none

/-- Whether the PID recorded in an existing lock file belongs to a live
process (`if existing_pid and psutil.pid_exists(existing_pid)`,
control_panel.py:65). -/
def recordedPidAlive (env : LockEnv) : Bool :=
  match env.lockFile with
  | none => false
  | some content =>
    match parseLockPid content with
    | some p => p != 0 && env.pidAlive p
    | none => false

/-- The lock-then-bind sequence of `_acquire_single_instance_lock`
(control_panel.py:78-105): the exclusive file lock, then the exclusive
loopback bind, then `handle.write(str(os.getpid()))`. -/
def attempt_locks (env : LockEnv) (staleRemoved : Bool) : AcquireResult :=
  if env.fileLockOk then
    if env.portBindOk then AcquireResult.acquired env.myPid staleRemoved
    else AcquireResult.bindError
  else AcquireResult.alreadyRunningError

/-- `_acquire_single_instance_lock` (control_panel.py:51-118). -/
def acquire_single_instance_lock (env : LockEnv) : AcquireResult :=
  match env.lockFile with
  | none => attempt_locks env false
  | some content =>
    match parseLockPid content with
    | some p =>
      if p != 0 && env.pidAlive p then AcquireResult.alreadyRunningError
      else attempt_locks env true       -- stale lock file removed first
    | none => attempt_locks env true    -- corrupted PID: removed, then lock

/-- Whether an `AcquireResult` is a successful acquisition. -/
def AcquireResult.isAcquired : AcquireResult → Bool
  | AcquireResult.acquired _ _ => true
  | _ => false

inductive EnforceOutcome where
  | proceeds
  | exits (code : Nat)
deriving DecidableEq, Repr

/-- `_enforce_single_instance` (control_panel.py:151-164): a `RuntimeError`
becomes `SystemExit(1)`; the `OSError` of a failed loopback bind escapes
the `except RuntimeError` clause and terminates the interpreter, which
also exits with status 1. -/
def enforce_single_instance (env : LockEnv) : EnforceOutcome :=
  match acquire_single_instance_lock env with
  | AcquireResult.acquired _ _ => EnforceOutcome.proceeds
  | AcquireResult.alreadyRunningError => EnforceOutcome.exits 1
  | AcquireResult.bindError => EnforceOutcome.exits 1

/-!
## `src/src/interface/control_panel.py` — status machine and routes

The probe signals feeding `_server_state`:
`_query_server_online` catches every exception internally and returns a
`Bool`; `_is_server_running` (dictionary lookup plus `proc.poll()`) is the
presence probe and, having no handler, would let an exception escape, so
it enters the model as `Except Unit Bool`.  The intent globals
`public_is_restarting` / `public_is_stopping` / `public_is_stopping_since`
form `PanelState`; `time.time()` is passed in as `now` (epoch seconds).
-/

structure PanelState where
  /-- `public_is_restarting` -/
  restarting : Bool
  /-- `public_is_stopping` -/
  stopping : Bool
  /-- `public_is_stopping_since` -/
  stoppingSince : Option Nat
deriving DecidableEq, Repr

/-- `_server_state` (control_panel.py:650-660), restricted to the
`"state"` entry of the returned dict: query online first, then the local
process handle, with no handler around the presence probe. -/
def server_state (hasProfile queryOnline : Bool) (processAlive : Except Unit Bool) :
    Except Unit String :=
  if !hasProfile then Except.ok "inactive"
  else if queryOnline then Except.ok "running"
  else
    match processAlive with
    | Except.error e => Except.error e
    | Except.ok true => Except.ok "starting"
    | Except.ok false => Except.ok "stopped"

/-- The flag-free tail of `_public_status_key` (control_panel.py:685-691):
map the raw state to the public key, with `"error"` for anything outside
the four raw states `_server_state` produces. -/
def raw_status_key (raw : String) : String :=
  if raw == "running" then "fully_loaded"
  else if raw == "starting" then "starting"
  else if raw == "stopped" || raw == "inactive" then "off"
  else "error"

/-- `_public_status_key` (control_panel.py:663-691).  Returns the status
key together with the updated intent state.  The grace-window test mirrors
Python's `if public_is_stopping_since and (time.time() -
public_is_stopping_since) > 45` — a `0` timestamp is falsy there, hence
the `t != 0` conjunct. -/
def public_status_key (st : PanelState) (now : Nat) (hasProfile queryOnline : Bool)
    (processAlive : Except Unit Bool) : Except Unit (String × PanelState) :=
  match server_state hasProfile queryOnline processAlive with
  | Except.error e => Except.error e
  | Except.ok raw =>
    if st.restarting then
      if raw == "running" then Except.ok ("fully_loaded", { st with restarting := false })
      else Except.ok ("restarting", st)
    else if st.stopping then
      if raw == "stopped" || raw == "inactive" then
        Except.ok ("off", { st with stopping := false, stoppingSince := none })
      else if (match st.stoppingSince with
               | some t => t != 0 && decide (45 < now - t)
               | none => false) then
        -- stuck flag: clear it and fall through to the raw evaluation
        -- (the timestamp itself is left in place)
        Except.ok (raw_status_key raw, { st with stopping := false })
      else Except.ok ("stopping", st)
    else Except.ok (raw_status_key raw, st)

inductive StartResult where
  /-- `f"Server is already {status_key...}"` with 400 (302 when stopping) -/
  | alreadyActive (statusKey : String) (httpCode : Nat)
  /-- `"Server is starting..."`, 200 -/
  | started
  /-- `"Error starting server"`, 500 -/
  | startError
deriving DecidableEq, Repr

/-- `_start_server_process` (control_panel.py:751-780): refuse when an
owned live process exists, raise `FileNotFoundError` when the run script
is missing, otherwise spawn.  Returns whether a process was spawned. -/
def start_server_process (processAlive runScriptExists : Bool) : Except Unit Bool :=
  if processAlive then Except.ok false
  else if !runScriptExists then Except.error ()
  else Except.ok true

/-- `public_start` (control_panel.py:906-928) for the active profile.
`processAlive` feeds the status resolution; `processAlive2` is the
spawn routine's own `_is_server_running` check.  The returned `Bool`
records whether a process was spawned. -/
def public_start (st : PanelState) (now : Nat) (queryOnline : Bool)
    (processAlive : Except Unit Bool) (processAlive2 runScriptExists : Bool) :
    Except Unit (StartResult × PanelState × Bool) :=
  match public_status_key st now true queryOnline processAlive with
  | Except.error e => Except.error e
  | Except.ok (key, st1) =>
    if key == "fully_loaded" || key == "starting" || key == "restarting"
        || key == "stopping" then
      Except.ok (StartResult.alreadyActive key (if key == "stopping" then 302 else 400),
        st1, false)
    else
      match start_server_process processAlive2 runScriptExists with
      | Except.error _ => Except.ok (StartResult.startError, st1, false)
      | Except.ok spawned =>
        -- on success all intent flags are cleared
        Except.ok (StartResult.started, ⟨false, false, none⟩, spawned)

inductive StopResult where
  /-- `"Server is already offline"`, 400 -/
  | alreadyOffline
  /-- `"Processing, please wait..."`, 302 -/
  | processingWait
  /-- `"Server is restarting, please wait..."`, 305 -/
  | restartingWait
  /-- `"Server is stopping..."`, 200, without issuing a second stop -/
  | alreadyStopping
  /-- stop accepted: the intent flag and timestamp are set and the
  background `_stop_async` task is spawned -/
  | stoppingAck
deriving DecidableEq, Repr

/-- `public_stop` (control_panel.py:931-959) for the active profile. -/
def public_stop (st : PanelState) (now : Nat) (queryOnline : Bool)
    (processAlive : Except Unit Bool) : Except Unit (StopResult × PanelState) :=
  match public_status_key st now true queryOnline processAlive with
  | Except.error e => Except.error e
  | Except.ok (key, st1) =>
    if key == "off" then Except.ok (StopResult.alreadyOffline, st1)
    else if key == "starting" then Except.ok (StopResult.processingWait, st1)
    else if key == "restarting" then Except.ok (StopResult.restartingWait, st1)
    else if key == "stopping" then Except.ok (StopResult.alreadyStopping, st1)
    else
      Except.ok (StopResult.stoppingAck,
        { st1 with stopping := true, stoppingSince := some now })

inductive RestartResult where
  /-- `"Server is already off"`, 400 -/
  | alreadyOff
  /-- `"Processing, please wait..."`, 302 -/
  | processingWait
  /-- `"Server is stopping, please wait..."`, 305 -/
  | stoppingWait
  /-- `"Server is already restarting"`, 400 -/
  | alreadyRestarting
  /-- restart accepted: the intent flag is set and `_restart_async` spawned -/
  | restartAccepted
deriving DecidableEq, Repr

/-- `public_restart` (control_panel.py:962-996) for the active profile. -/
def public_restart (st : PanelState) (now : Nat) (queryOnline : Bool)
    (processAlive : Except Unit Bool) : Except Unit (RestartResult × PanelState) :=
  match public_status_key st now true queryOnline processAlive with
  | Except.error e => Except.error e
  | Except.ok (key, st1) =>
    if key == "off" then Except.ok (RestartResult.alreadyOff, st1)
    else if key == "starting" then Except.ok (RestartResult.processingWait, st1)
    else if key == "stopping" then Except.ok (RestartResult.stoppingWait, st1)
    else if st1.restarting then Except.ok (RestartResult.alreadyRestarting, st1)
    else Except.ok (RestartResult.restartAccepted, { st1 with restarting := true })

inductive RestartEvent where
  /-- `_stop_server_process(profile)` — graceful RCON stop plus wait -/
  | stopCall
  /-- `time.sleep(20)` -/
  | cooldown (seconds : Nat)
  /-- `_start_server_process(profile)` -/
  | startCall
deriving DecidableEq, Repr

/-- `_restart_async` (control_panel.py:977-987): the try/finally body of
the background restart task.  `stopRaises`/`startRaises` inject a fault
into the corresponding sub-step; the third component reports whether the
body re-raised. -/
def restart_async (st : PanelState) (stopRaises startRaises : Bool) :
    PanelState × List RestartEvent × Bool :=
  let st1 : PanelState := { st with restarting := true }
  if stopRaises then
    -- the finally clause still clears the restarting intent
    ({ st1 with restarting := false }, [RestartEvent.stopCall], true)
  else
    let st2 : PanelState := { st1 with stopping := false, stoppingSince := none }
    let events := [RestartEvent.stopCall, RestartEvent.cooldown 20, RestartEvent.startCall]
    if startRaises then ({ st2 with restarting := false }, events, true)
    else ({ st2 with restarting := false }, events, false)

deriving instance DecidableEq for Except

/-!
# Theorems

## Properties-file upsert (claims C8, C10)
-/

theorem pyStripChars_append_space (cs : List Char) (c : Char)
    (hc : isPySpace c = true) : pyStripChars (cs ++ [c]) = pyStripChars cs := by
  unfold pyStripChars
  rw [List.dropWhile_append]
  by_cases h : (cs.dropWhile isPySpace).isEmpty
  · rw [if_pos h]
    rw [List.isEmpty_iff] at h
    rw [h]
    simp [List.dropWhile_cons, hc]
  · rw [if_neg h]
    rw [List.reverse_append]
    simp [List.dropWhile_cons, hc]

theorem pyStrip_append_newline (s : String) : pyStrip (s ++ "\n") = pyStrip s := by
  have hd : (s ++ "\n").data = s.data ++ ['\n'] := String.data_append s "\n"
  unfold pyStrip
  rw [hd, pyStripChars_append_space s.data '\n' (by decide)]

theorem parse_append_newline (l : String) :
    parse_key_value_from_line (l ++ "\n") = parse_key_value_from_line l := by
  unfold parse_key_value_from_line
  rw [pyStrip_append_newline]

theorem mem_ensureTrailingNewline : ∀ (ls : List String) (m : String),
    m ∈ ensureTrailingNewline ls → m ∈ ls ∨ ∃ l, l ∈ ls ∧ m = l ++ "\n"
  | [], m, h => by simp [ensureTrailingNewline] at h
  | [l], m, h => by
    simp only [ensureTrailingNewline] at h
    split at h
    · left; exact h
    · right
      simp only [List.mem_singleton] at h
      exact ⟨l, List.mem_singleton_self l, h⟩
  | l :: l' :: ls, m, h => by
    simp only [ensureTrailingNewline] at h
    rcases List.mem_cons.mp h with h1 | h2
    · left; exact h1 ▸ List.mem_cons_self l (l' :: ls)
    · rcases mem_ensureTrailingNewline (l' :: ls) m h2 with h3 | ⟨x, hx, he⟩
      · left; exact List.mem_cons_of_mem l h3
      · right; exact ⟨x, List.mem_cons_of_mem l hx, he⟩

theorem writeLoop_nil_remaining : ∀ ls : List String, writeLoop ls [] = (ls, [])
  | [] => rfl
  | l :: ls => by
    simp only [writeLoop]
    cases hk : (parse_key_value_from_line l).1 with
    | none => rw [writeLoop_nil_remaining ls]
    | some k =>
      show (match popKey k [] with
        | some (v, remaining') =>
          let p := writeLoop ls remaining'
          (updatedLine k v :: p.1, p.2)
        | none =>
          let p := writeLoop ls []
          (l :: p.1, p.2)) = _
      rw [show popKey k [] = none from rfl]
      rw [writeLoop_nil_remaining ls]

theorem writeLoop_no_match (k v : String) : ∀ ls : List String,
    (∀ l ∈ ls, (parse_key_value_from_line l).1 ≠ some k) →
    writeLoop ls [(k, v)] = (ls, [(k, v)])
  | [], _ => rfl
  | l :: ls, h => by
    have htail := writeLoop_no_match k v ls (fun x hx => h x (List.mem_cons_of_mem l hx))
    have hhead := h l (List.mem_cons_self l ls)
    simp only [writeLoop]
    cases hk : (parse_key_value_from_line l).1 with
    | none => rw [htail]
    | some k' =>
      have hne : (k == k') = false := by
        rw [beq_eq_false_iff_ne]
        intro he
        exact hhead (by rw [hk, he])
      show (match popKey k' [(k, v)] with
        | some (v', remaining') =>
          let p := writeLoop ls remaining'
          (updatedLine k' v' :: p.1, p.2)
        | none =>
          let p := writeLoop ls [(k, v)]
          (l :: p.1, p.2)) = _
      have hp : popKey k' [(k, v)] = none := by
        simp only [popKey, hne, if_false]
        rfl
      rw [hp, htail]

theorem writeLoop_append (xs : List String) (ys : List String)
    (rem : List (String × String)) :
    writeLoop (xs ++ ys) rem =
      ((writeLoop xs rem).1 ++ (writeLoop ys (writeLoop xs rem).2).1,
        (writeLoop ys (writeLoop xs rem).2).2) := by
  induction xs generalizing rem with
  | nil => simp [writeLoop]
  | cons x xs ih =>
    simp only [List.cons_append, writeLoop]
    cases hk : (parse_key_value_from_line x).1 with
    | none => simp [ih rem]
    | some k =>
      cases hp : popKey k rem with
      | none => dsimp only; rw [hp]; simp [ih rem]
      | some vr => dsimp only; rw [hp]; cases vr with | mk v r => simp [ih r]

theorem writeLoop_first_match (k v : String) (pre : List String)
    (hpre : ∀ l ∈ pre, (parse_key_value_from_line l).1 ≠ some k)
    (l : String) (hl : (parse_key_value_from_line l).1 = some k)
    (post : List String) :
    writeLoop (pre ++ l :: post) [(k, v)] = (pre ++ updatedLine k v :: post, []) := by
  rw [writeLoop_append, writeLoop_no_match k v pre hpre]
  simp only [writeLoop, hl]
  have hp : popKey k [(k, v)] = some (v, []) := by
    simp [popKey]
  rw [hp]
  simp [writeLoop_nil_remaining post]

theorem ensure_no_match (k : String) (lines : List String)
    (h : ∀ l ∈ lines, (parse_key_value_from_line l).1 ≠ some k) :
    ∀ l ∈ ensureTrailingNewline lines, (parse_key_value_from_line l).1 ≠ some k := by
  intro m hm
  rcases mem_ensureTrailingNewline lines m hm with h1 | ⟨l, hl, he⟩
  · exact h m h1
  · rw [he, parse_append_newline]
    exact h l hl

/-- C8 counterexample: on an existing file whose final line lacks a
trailing newline, upserting `rcon.port=27001` does NOT leave every
unrelated line byte-for-byte unchanged — the final comment line `# hello`
gains a newline before the new key is appended, so the original line is
no longer present in the output. -/
theorem C8_counterexample :
    write_server_properties ["a=1\n", "# hello"] [("rcon.port", "27001")]
        = ["a=1\n", "# hello\n", autoHeader, updatedLine "rcon.port" "27001"]
      ∧ "# hello" ∉ write_server_properties ["a=1\n", "# hello"] [("rcon.port", "27001")] := by
  decide

/-- C8 (amended): for every existing properties file none of whose lines
parses to the key `rcon.port`, upserting `rcon.port=27001` keeps every
unrelated line verbatim except that the final line gains a terminating
newline when it lacked one, appends a comment header and exactly one
`rcon.port=27001` line, and applying the same upsert a second time yields
the same file (idempotence). -/
theorem C8_upsert (lines : List String)
    (h : ∀ l ∈ lines, (parse_key_value_from_line l).1 ≠ some "rcon.port") :
    write_server_properties lines [("rcon.port", "27001")]
        = ensureTrailingNewline lines ++ [autoHeader, updatedLine "rcon.port" "27001"]
      ∧ (write_server_properties lines [("rcon.port", "27001")]).count
          (updatedLine "rcon.port" "27001") = 1
      ∧ write_server_properties
            (write_server_properties lines [("rcon.port", "27001")])
            [("rcon.port", "27001")]
          = write_server_properties lines [("rcon.port", "27001")] := by
  have h1 : write_server_properties lines [("rcon.port", "27001")]
      = ensureTrailingNewline lines ++ [autoHeader, updatedLine "rcon.port" "27001"] := by
    unfold write_server_properties
    rw [writeLoop_no_match _ _ lines h]
    rfl
  refine ⟨h1, ?_, ?_⟩
  · rw [h1, List.count_append]
    have h0 : (ensureTrailingNewline lines).count (updatedLine "rcon.port" "27001") = 0 := by
      rw [List.count_eq_zero]
      intro hmem
      exact ensure_no_match "rcon.port" lines h _ hmem (by decide)
    rw [h0]
    decide
  · rw [h1]
    have hpre : ∀ l ∈ ensureTrailingNewline lines ++ [autoHeader],
        (parse_key_value_from_line l).1 ≠ some "rcon.port" := by
      intro l hl
      rcases List.mem_append.mp hl with h2 | h2
      · exact ensure_no_match "rcon.port" lines h l h2
      · rw [List.mem_singleton] at h2
        rw [h2]
        decide
    have hlm : (parse_key_value_from_line (updatedLine "rcon.port" "27001")).1
        = some "rcon.port" := by decide
    have key := writeLoop_first_match "rcon.port" "27001"
      (ensureTrailingNewline lines ++ [autoHeader]) hpre
      (updatedLine "rcon.port" "27001") hlm []
    unfold write_server_properties
    rw [show ensureTrailingNewline lines ++ [autoHeader, updatedLine "rcon.port" "27001"]
        = (ensureTrailingNewline lines ++ [autoHeader])
            ++ updatedLine "rcon.port" "27001" :: [] from by simp]
    rw [key]
    rfl

/-- C8 witness: the amended upsert behaviour at a concrete two-line file. -/
theorem C8_witness :
    write_server_properties ["a=1\n", "#comment here\n"] [("rcon.port", "27001")]
        = ensureTrailingNewline ["a=1\n", "#comment here\n"]
            ++ [autoHeader, updatedLine "rcon.port" "27001"]
      ∧ (write_server_properties ["a=1\n", "#comment here\n"] [("rcon.port", "27001")]).count
          (updatedLine "rcon.port" "27001") = 1
      ∧ write_server_properties
            (write_server_properties ["a=1\n", "#comment here\n"] [("rcon.port", "27001")])
            [("rcon.port", "27001")]
          = write_server_properties ["a=1\n", "#comment here\n"] [("rcon.port", "27001")] :=
  C8_upsert ["a=1\n", "#comment here\n"] (by decide)

/-- C10: `write_server_properties` rewrites the first line — commented or
not — whose parsed key matches the updated key, replacing it by the
uncommented `key=value` line (the comment marker is not preserved), and
leaves every later line for the same key, commented or not, unchanged; in
particular a file with an uncommented `key=...` line followed by a
commented `#key=...` line ends with one updated line and the stale
commented line still present. -/
theorem C10_first_match_rewrite :
    (∀ (k v : String) (pre post : List String) (l : String),
        (∀ l' ∈ pre, (parse_key_value_from_line l').1 ≠ some k) →
        (parse_key_value_from_line l).1 = some k →
        write_server_properties (pre ++ l :: post) [(k, v)]
          = pre ++ updatedLine k v :: post)
    ∧ write_server_properties ["#key=old\n", "x=1\n"] [("key", "new")]
        = ["key=new\n", "x=1\n"]
    ∧ write_server_properties ["key=old\n", "#key=older\n"] [("key", "new")]
        = ["key=new\n", "#key=older\n"] := by
  refine ⟨?_, by decide, by decide⟩
  intro k v pre post l hpre hl
  unfold write_server_properties
  rw [writeLoop_first_match k v pre hpre l hl post]
  rfl

/-- C10 witness: first-match rewrite applied to a concrete three-line file. -/
theorem C10_witness :
    write_server_properties (["a=1\n"] ++ "#key=old\n" :: ["x=2\n"]) [("key", "new")]
      = ["a=1\n"] ++ updatedLine "key" "new" :: ["x=2\n"] :=
  C10_first_match_rewrite.1 "key" "new" ["a=1\n"] ["x=2\n"] "#key=old\n"
    (by decide) (by decide)

/-!
## Sidecar startup-log probe (claim C7)
-/

/-- C7: during the startup-log probe a line is recorded as a failure iff
it carries a failure marker and is not a warm-up proxy error, where being
a warm-up proxy error requires both a connection-error marker and the
known local upstream address in the same line; hence a startup log of
connection-refused lines against the local upstream yields had-failure =
false, while a log containing an authorization-error line yields
had-failure = true regardless of where it appears in the probe window. -/
theorem C7_warmup_classifier :
    (∀ line : String, line_flags_failure line = true ↔
        (failure_markers.any (fun m => pyIn m (pyLower line)) = true
          ∧ is_warmup_proxy_error (pyLower line) = false))
    ∧ probe_had_failure
        ["[caddy] \"level\":\"error\" dial tcp 127.0.0.1:38000: connectex: connection refused",
         "\"level\":\"error\" reverseproxy.statuserror connection refused upstream 127.0.0.1:38000"]
        none = false
    ∧ (∀ (pre post : List String) (exitCode : Option Int),
        probe_had_failure (pre ++ "authorization failed for domain example.com" :: post)
          exitCode = true) := by
  refine ⟨?_, by decide, ?_⟩
  · intro line
    unfold line_flags_failure
    constructor
    · intro hl
      have h1 := (Bool.and_eq_true ..).mp hl
      refine ⟨h1.1, ?_⟩
      have h2 := h1.2
      simpa using h2
    · rintro ⟨h1, h2⟩
      simp [h1, h2]
  · intro pre post exitCode
    have hauth : line_flags_failure "authorization failed for domain example.com" = true := by
      decide
    have hfl : 0 < (probe_failure_lines
        (pre ++ "authorization failed for domain example.com" :: post)).length := by
      simp [probe_failure_lines, List.filter_append, List.filter_cons, hauth]
    have hlen : 0 < (last_start_errors
        (pre ++ "authorization failed for domain example.com" :: post)).length := by
      unfold last_start_errors
      rw [List.length_drop]
      omega
    have hne : (last_start_errors
        (pre ++ "authorization failed for domain example.com" :: post)).isEmpty = false := by
      cases hl : (last_start_errors
          (pre ++ "authorization failed for domain example.com" :: post)).isEmpty
      · rfl
      · rw [List.isEmpty_iff] at hl
        rw [hl] at hlen
        simp at hlen
    unfold probe_had_failure
    rw [hne]
    rfl

/-- C7 witness: the universally quantified part at a concrete log. -/
theorem C7_witness :
    probe_had_failure
      (["ok line"] ++ "authorization failed for domain example.com" :: []) none = true :=
  C7_warmup_classifier.2.2 ["ok line"] [] none

/-!
## Inactivity controller (claims C5, C9)
-/

/-- C5: with idle threshold equal to two poll intervals, feeding the
activity samples [5, 0, 0, 0] at successive poll ticks makes the
idle-shutdown debounce flag go from unset to set exactly once, at the
third sample, and issues the graceful control-protocol stop exactly
once. -/
theorem C5_inactivity_debounce (i : Nat) (hi : 0 < i) (pcSleep shutdownApp : Bool) :
    (run_controller (2 * i) pcSleep shutdownApp i ⟨0, false, 0⟩ 0
        [some 5, some 0, some 0, some 0]).map
        (fun r => r.1.inactivity_shutdown_triggered) = [false, false, true, true]
    ∧ (run_controller (2 * i) pcSleep shutdownApp i ⟨0, false, 0⟩ 0
        [some 5, some 0, some 0, some 0]).map (fun r => r.2.1)
        = [false, false, true, false]
    ∧ ((run_controller (2 * i) pcSleep shutdownApp i ⟨0, false, 0⟩ 0
        [some 5, some 0, some 0, some 0]).map
        (fun r => r.2.2.count CtrlEvent.stopServer)).sum = 1 := by
  have s1 : check_inactivity_and_shutdown (2 * i) pcSleep shutdownApp ⟨0, false, 0⟩ 0 (some 5)
      = (⟨0, false, 5⟩, false, []) := by
    simp [check_inactivity_and_shutdown]
  have s2 : check_inactivity_and_shutdown (2 * i) pcSleep shutdownApp ⟨0, false, 5⟩ (0 + i) (some 0)
      = (⟨0, false, 5⟩, false, []) := by
    simp [check_inactivity_and_shutdown, inactivity_check]
    omega
  have s3 : check_inactivity_and_shutdown (2 * i) pcSleep shutdownApp ⟨0, false, 5⟩ (0 + i + i)
      (some 0)
      = (⟨0, true, 5⟩, true,
          [CtrlEvent.stopServer] ++ (if pcSleep then [CtrlEvent.sleepPC] else [])
            ++ (if shutdownApp then [CtrlEvent.shutdownApp] else [])) := by
    simp [check_inactivity_and_shutdown, inactivity_check]
    omega
  have s4 : check_inactivity_and_shutdown (2 * i) pcSleep shutdownApp ⟨0, true, 5⟩ (0 + i + i + i)
      (some 0)
      = (⟨0, true, 5⟩, false, []) := by
    simp [check_inactivity_and_shutdown, inactivity_check]
  refine ⟨?_, ?_, ?_⟩ <;>
    simp only [run_controller, s1, s2, s3, s4] <;>
    cases pcSleep <;> cases shutdownApp <;> simp

/-- C5 witness: the debounce property at the concrete default poll
interval of 60 seconds. -/
theorem C5_witness :
    (run_controller (2 * 60) true false 60 ⟨0, false, 0⟩ 0
        [some 5, some 0, some 0, some 0]).map
        (fun r => r.1.inactivity_shutdown_triggered) = [false, false, true, true]
    ∧ (run_controller (2 * 60) true false 60 ⟨0, false, 0⟩ 0
        [some 5, some 0, some 0, some 0]).map (fun r => r.2.1)
        = [false, false, true, false]
    ∧ ((run_controller (2 * 60) true false 60 ⟨0, false, 0⟩ 0
        [some 5, some 0, some 0, some 0]).map
        (fun r => r.2.2.count CtrlEvent.stopServer)).sum = 1 :=
  C5_inactivity_debounce 60 (by decide) true false

/-- C9: the `ServerProfile` dataclass does not declare the
terminate-self-on-idle boolean its own callers rely on: the keyword set
`_profile_from_request` passes is rejected by the dataclass constructor
(`TypeError`), `shutdown_app_after_inactivity` is not among the declared
fields while `pc_sleep_after_inactivity` is, and with the resulting
`getattr` default of `False` the controller never schedules
self-termination. -/
theorem C9_profile_missing_flag :
    dataclassCallOk serverProfileFields profileFromRequestKwargs = false
    ∧ serverProfileFields.contains "shutdown_app_after_inactivity" = false
    ∧ serverProfileFields.contains "pc_sleep_after_inactivity" = true
    ∧ profileFromRequestKwargs.contains "shutdown_app_after_inactivity" = true
    ∧ profileHasShutdownAppField = false
    ∧ (∀ (limit : Nat) (pcSleep : Bool) (st : CtrlState) (now : Nat) (pc : Option Nat),
        CtrlEvent.shutdownApp ∉
          (check_inactivity_and_shutdown limit pcSleep false st now pc).2.2) := by
  refine ⟨by decide, by decide, by decide, by decide, by decide, ?_⟩
  intro limit pcSleep st now pc
  unfold check_inactivity_and_shutdown inactivity_check
  rcases pc with _ | n
  · dsimp only
    split
    · cases pcSleep <;> simp
    · simp
  · dsimp only
    by_cases h : 0 < n
    · simp [h]
    · rw [if_neg h]
      split
      · cases pcSleep <;> simp
      · simp

/-!
## Single-instance guard (claim C6)
-/

/-- C6: instance-guard acquisition fails whenever the recorded PID is
alive, the exclusive file lock fails, or the exclusive loopback bind
fails, and every failure makes the process exit with a non-zero status;
both guards must succeed for acquisition to succeed; on a stale or
unparseable lock file the file is removed and a fresh acquire succeeds,
recording the calling process's PID. -/
theorem C6_instance_guard (env : LockEnv) :
    (acquire_single_instance_lock env).isAcquired
        = (!recordedPidAlive env && env.fileLockOk && env.portBindOk)
    ∧ (∀ pid removed,
        acquire_single_instance_lock env = AcquireResult.acquired pid removed →
        pid = env.myPid)
    ∧ (recordedPidAlive env = true →
        enforce_single_instance env = EnforceOutcome.exits 1)
    ∧ (env.fileLockOk = false →
        enforce_single_instance env = EnforceOutcome.exits 1)
    ∧ (env.portBindOk = false →
        enforce_single_instance env = EnforceOutcome.exits 1)
    ∧ (∀ content, env.lockFile = some content → recordedPidAlive env = false →
        env.fileLockOk = true → env.portBindOk = true →
        acquire_single_instance_lock env = AcquireResult.acquired env.myPid true) := by
  obtain ⟨lf, alive, flok, pbok, pid⟩ := env
  rcases lf with _ | content
  · cases flok <;> cases pbok <;>
      simp [recordedPidAlive, acquire_single_instance_lock, enforce_single_instance,
        attempt_locks, AcquireResult.isAcquired]
  · rcases hp : parseLockPid content with _ | p
    · cases flok <;> cases pbok <;>
        simp [recordedPidAlive, acquire_single_instance_lock, enforce_single_instance,
          attempt_locks, AcquireResult.isAcquired, hp]
    · cases ha : (p != 0 && alive p) <;>
        cases flok <;> cases pbok <;>
        simp [recordedPidAlive, acquire_single_instance_lock, enforce_single_instance,
          attempt_locks, AcquireResult.isAcquired, hp, ha]

/-- C6 witness: a stale lock file (dead recorded PID) is recovered and a
fresh acquire records the new PID. -/
theorem C6_witness :
    acquire_single_instance_lock ⟨some " 123 ", fun _ => false, true, true, 999⟩
      = AcquireResult.acquired 999 true :=
  (C6_instance_guard ⟨some " 123 ", fun _ => false, true, true, 999⟩).2.2.2.2.2
    " 123 " rfl (by rfl) rfl rfl

/-!
## Status state machine and routes (claims C1, C2, C3, C4)
-/

theorem server_state_true_cases (q : Bool) (al : Except Unit Bool) (raw : String)
    (h : server_state true q al = Except.ok raw) :
    raw = "running" ∨ raw = "starting" ∨ raw = "stopped" := by
  cases q with
  | true =>
    simp [server_state] at h
    exact Or.inl h.symm
  | false =>
    rcases al with e | b
    · simp [server_state] at h
    · cases b
      · simp [server_state] at h
        exact Or.inr (Or.inr h.symm)
      · simp [server_state] at h
        exact Or.inr (Or.inl h.symm)

theorem raw_status_key_ne_stopping (raw : String) : raw_status_key raw ≠ "stopping" := by
  unfold raw_status_key
  split
  · decide
  · split
    · decide
    · split
      · decide
      · decide

theorem raw_status_key_refusal (raw : String)
    (h : (raw == "running" || raw == "starting") = true) :
    (raw_status_key raw == "fully_loaded" || raw_status_key raw == "starting"
      || raw_status_key raw == "restarting" || raw_status_key raw == "stopping") = true := by
  have h2 : raw = "running" ∨ raw = "starting" := by
    rcases Bool.or_eq_true .. |>.mp h with h1 | h1
    · exact Or.inl (eq_of_beq h1)
    · exact Or.inr (eq_of_beq h1)
  rcases h2 with h1 | h1 <;> subst h1 <;> rfl

/-- C1 counterexample: when the presence probe raises (and the query probe
has failed), the status resolution does not yield the "error" status key —
there is no handler in `_server_state`, so the exception propagates out of
`_public_status_key` and no status is produced at all. -/
theorem C1_counterexample :
    public_status_key ⟨false, false, none⟩ 0 true false (Except.error ())
      = Except.error () := by rfl

/-- C1 (amended): with both intent flags clear the resolution implements
the case analysis — query success → "fully_loaded" (Running); else a
locally-owned process alive → "starting"; else "off" — but an exception
during presence probing propagates out of the resolution instead of
yielding "error" (the "error" key is only a fallback for raw states
`_server_state` never produces).  The end-to-end scenario holds: Off →
start() spawns → (process present, query unreachable) reads "starting" →
query success reads "fully_loaded" → graceful stop reads "stopping"
until the probes show the process gone → "off" with the flag cleared. -/
theorem C1_status_state_machine :
    (∀ (now : Nat) (al : Except Unit Bool),
        public_status_key ⟨false, false, none⟩ now true true al
          = Except.ok ("fully_loaded", ⟨false, false, none⟩))
    ∧ (∀ now : Nat,
        public_status_key ⟨false, false, none⟩ now true false (Except.ok true)
          = Except.ok ("starting", ⟨false, false, none⟩))
    ∧ (∀ now : Nat,
        public_status_key ⟨false, false, none⟩ now true false (Except.ok false)
          = Except.ok ("off", ⟨false, false, none⟩))
    ∧ (∀ (now : Nat) (st : PanelState),
        public_status_key st now true false (Except.error ()) = Except.error ())
    ∧ (public_status_key ⟨false, false, none⟩ 0 true false (Except.ok false)
          = Except.ok ("off", ⟨false, false, none⟩)
      ∧ public_start ⟨false, false, none⟩ 1 false (Except.ok false) false true
          = Except.ok (StartResult.started, ⟨false, false, none⟩, true)
      ∧ public_status_key ⟨false, false, none⟩ 2 true false (Except.ok true)
          = Except.ok ("starting", ⟨false, false, none⟩)
      ∧ public_status_key ⟨false, false, none⟩ 60 true true (Except.ok true)
          = Except.ok ("fully_loaded", ⟨false, false, none⟩)
      ∧ public_stop ⟨false, false, none⟩ 100 true (Except.ok true)
          = Except.ok (StopResult.stoppingAck, ⟨false, true, some 100⟩)
      ∧ public_status_key ⟨false, true, some 100⟩ 110 true true (Except.ok true)
          = Except.ok ("stopping", ⟨false, true, some 100⟩)
      ∧ public_status_key ⟨false, true, some 100⟩ 120 true false (Except.ok false)
          = Except.ok ("off", ⟨false, false, none⟩)) := by
  refine ⟨fun now al => rfl, fun now => rfl, fun now => rfl, fun now st => rfl,
    by decide, by decide, by decide, by decide, by decide, by decide, by decide⟩

/-- C2: while the stopping intent flag is set (the restarting intent being
clear, which is what makes the stopping branch run, and the stop
timestamp recorded): probes reporting the server gone clear the flag and
yield "off"; past the 45-second grace window the flag is cleared and the
key is recomputed from the raw probe signals; otherwise "stopping" is
returned; and a resolution can return "stopping" only within the grace
window. -/
theorem C2_stopping_grace (st : PanelState) (now t : Nat) (q : Bool)
    (al : Except Unit Bool) (hR : st.restarting = false)
    (hS : st.stopping = true) (hT : st.stoppingSince = some t) (ht0 : t ≠ 0) :
    (server_state true q al = Except.ok "stopped" →
        public_status_key st now true q al
          = Except.ok ("off", ⟨false, false, none⟩))
    ∧ (45 < now - t →
        ∀ raw, server_state true q al = Except.ok raw → raw ≠ "stopped" →
        public_status_key st now true q al
          = Except.ok (raw_status_key raw, ⟨false, false, some t⟩))
    ∧ (now - t ≤ 45 →
        ∀ raw, server_state true q al = Except.ok raw → raw ≠ "stopped" →
        public_status_key st now true q al
          = Except.ok ("stopping", ⟨false, true, some t⟩))
    ∧ (∀ key st', public_status_key st now true q al = Except.ok (key, st') →
        key = "stopping" → now - t ≤ 45) := by
  obtain ⟨r, s, ss⟩ := st
  dsimp only at hR hS hT
  subst hR; subst hS; subst hT
  refine ⟨?_, ?_, ?_, ?_⟩
  · intro hgone
    unfold public_status_key
    rw [hgone]
    rfl
  · intro h45 raw hraw hne
    have hcond : (raw == "stopped" || raw == "inactive") = false := by
      rcases server_state_true_cases q al raw hraw with h1 | h1 | h1 <;> subst h1
      · rfl
      · rfl
      · exact absurd rfl hne
    have htime : (t != 0 && decide (45 < now - t)) = true := by
      simp [ht0, h45]
    unfold public_status_key
    rw [hraw]
    dsimp only
    simp [hcond, htime]
  · intro h45 raw hraw hne
    have hcond : (raw == "stopped" || raw == "inactive") = false := by
      rcases server_state_true_cases q al raw hraw with h1 | h1 | h1 <;> subst h1
      · rfl
      · rfl
      · exact absurd rfl hne
    have htime : (t != 0 && decide (45 < now - t)) = false := by
      simp [Nat.not_lt.mpr h45]
    unfold public_status_key
    rw [hraw]
    dsimp only
    simp [hcond, htime]
  · intro key st' h hkey
    subst hkey
    cases hs : server_state true q al with
    | error e =>
      unfold public_status_key at h
      rw [hs] at h
      simp at h
    | ok raw =>
      unfold public_status_key at h
      rw [hs] at h
      by_cases hcond : (raw == "stopped" || raw == "inactive") = true
      · simp [hcond] at h
      · simp only [hcond] at h
        by_cases htime : (t != 0 && decide (45 < now - t)) = true
        · simp [htime] at h
          exact absurd h.1 (raw_status_key_ne_stopping raw)
        · by_contra hgt
          apply htime
          simp [ht0]
          omega

/-- C2 witness: past the grace window the key is recomputed from the raw
signals (here the owned process is still alive, so "starting"). -/
theorem C2_witness :
    public_status_key ⟨false, true, some 100⟩ 150 true false (Except.ok true)
      = Except.ok (raw_status_key "starting", ⟨false, false, some 100⟩) :=
  (C2_stopping_grace ⟨false, true, some 100⟩ 150 100 false (Except.ok true)
      rfl rfl rfl (by decide)).2.1 (by decide) "starting" rfl (by decide)

theorem status_key_of_restarting (st : PanelState) (now : Nat) (q : Bool)
    (al : Except Unit Bool) (key : String) (st1 : PanelState)
    (h : public_status_key st now true q al = Except.ok (key, st1))
    (hflag : st1.restarting = true) : key = "restarting" ∧ st1 = st := by
  obtain ⟨r, s, ss⟩ := st
  cases hs : server_state true q al with
  | error e =>
    unfold public_status_key at h
    rw [hs] at h
    simp at h
  | ok raw =>
    unfold public_status_key at h
    rw [hs] at h
    cases r
    · exfalso
      cases s
      · simp at h
        rw [← h.2] at hflag
        simp at hflag
      · by_cases hcond : (raw == "stopped" || raw == "inactive") = true
        · simp [hcond] at h
          rw [← h.2] at hflag
          simp at hflag
        · simp only [hcond] at h
          rcases ss with _ | t
          · simp at h
            rw [← h.2] at hflag
            simp at hflag
          · by_cases htime : (t != 0 && decide (45 < now - t)) = true
            · simp [htime] at h
              rw [← h.2] at hflag
              simp at hflag
            · simp [htime] at h
              rw [← h.2] at hflag
              simp at hflag
    · by_cases hrun : (raw == "running") = true
      · simp [hrun] at h
        exfalso
        rw [← h.2] at hflag
        simp at hflag
      · simp [hrun] at h
        exact ⟨h.1.symm, h.2.symm⟩

theorem status_key_of_alive (st : PanelState) (now : Nat) (q : Bool) :
    ∃ key st1, public_status_key st now true q (Except.ok true) = Except.ok (key, st1)
      ∧ (key == "fully_loaded" || key == "starting" || key == "restarting"
          || key == "stopping") = true := by
  have hraw : ∃ raw, server_state true q (Except.ok true) = Except.ok raw
      ∧ (raw == "running" || raw == "starting") = true := by
    cases q
    · exact ⟨"starting", rfl, rfl⟩
    · exact ⟨"running", rfl, rfl⟩
  obtain ⟨raw, hs, hraw2⟩ := hraw
  have hgone : (raw == "stopped" || raw == "inactive") = false := by
    rcases Bool.or_eq_true .. |>.mp hraw2 with h1 | h1
    · rw [eq_of_beq h1]; rfl
    · rw [eq_of_beq h1]; rfl
  unfold public_status_key
  rw [hs]
  dsimp only
  by_cases hr : st.restarting = true
  · rw [if_pos hr]
    by_cases hrun : (raw == "running") = true
    · rw [if_pos hrun]
      exact ⟨"fully_loaded", _, rfl, rfl⟩
    · rw [if_neg hrun]
      exact ⟨"restarting", st, rfl, rfl⟩
  · rw [if_neg hr]
    by_cases hstop : st.stopping = true
    · rw [if_pos hstop]
      rw [hgone]
      rw [if_neg (by decide : ¬ (false = true))]
      split
      · exact ⟨raw_status_key raw, _, rfl, raw_status_key_refusal raw hraw2⟩
      · exact ⟨"stopping", st, rfl, rfl⟩
    · rw [if_neg hstop]
      exact ⟨raw_status_key raw, st, rfl, raw_status_key_refusal raw hraw2⟩

theorem status_key_ok (st : PanelState) (now : Nat) (hasP q : Bool)
    (al : Except Unit Bool) (raw : String)
    (hs : server_state hasP q al = Except.ok raw) :
    ∃ key st1, public_status_key st now hasP q al = Except.ok (key, st1) := by
  unfold public_status_key
  rw [hs]
  dsimp only
  repeat' split
  all_goals exact ⟨_, _, rfl⟩

/-- C3: a restart call is refused as already-restarting exactly when the
restarting intent flag is set at the acceptance check, and an accepted
call saw the flag false there; the background operation performs the
graceful stop, then the fixed 20-second cooldown, then start; and the
flag is false again after the operation returns under every fault
combination on the stop and start sub-steps, because the `finally`
clause clears it regardless of outcome. -/
theorem C3_restart_intent (st : PanelState) (now : Nat) (q : Bool)
    (al : Except Unit Bool) :
    (∀ key st1, public_status_key st now true q al = Except.ok (key, st1) →
        st1.restarting = true →
        public_restart st now q al = Except.ok (RestartResult.alreadyRestarting, st1))
    ∧ (∀ st2, public_restart st now q al
          = Except.ok (RestartResult.restartAccepted, st2) →
        ∃ key st1, public_status_key st now true q al = Except.ok (key, st1)
          ∧ st1.restarting = false ∧ st2 = { st1 with restarting := true })
    ∧ (∀ s : PanelState, restart_async s false false
        = (⟨false, false, none⟩,
            [RestartEvent.stopCall, RestartEvent.cooldown 20, RestartEvent.startCall],
            false))
    ∧ (∀ (s : PanelState) (stopRaises startRaises : Bool),
        ((restart_async s stopRaises startRaises).1).restarting = false)
    ∧ (∀ (s : PanelState) (startRaises : Bool),
        (restart_async s false startRaises).2.1
          = [RestartEvent.stopCall, RestartEvent.cooldown 20, RestartEvent.startCall]) := by
  refine ⟨?_, ?_, fun s => rfl, ?_, fun s startRaises => by cases startRaises <;> rfl⟩
  · intro key st1 h hflag
    obtain ⟨hkey, hst⟩ := status_key_of_restarting st now q al key st1 h hflag
    subst hkey
    unfold public_restart
    rw [h]
    dsimp only
    rw [if_neg (by decide), if_neg (by decide), if_neg (by decide)]
    rw [if_pos hflag]
  · intro st2 h
    cases hs : server_state true q al with
    | error e =>
      unfold public_restart public_status_key at h
      rw [hs] at h
      simp at h
    | ok raw =>
      obtain ⟨key, st1, hres⟩ := status_key_ok st now true q al raw hs
      unfold public_restart at h
      rw [hres] at h
      dsimp only at h
      by_cases hoff : (key == "off") = true
      · rw [if_pos hoff] at h
        simp at h
      · rw [if_neg hoff] at h
        by_cases hstart : (key == "starting") = true
        · rw [if_pos hstart] at h
          simp at h
        · rw [if_neg hstart] at h
          by_cases hstop2 : (key == "stopping") = true
          · rw [if_pos hstop2] at h
            simp at h
          · rw [if_neg hstop2] at h
            by_cases hflag : st1.restarting = true
            · rw [if_pos hflag] at h
              simp at h
            · rw [if_neg hflag] at h
              simp at h
              exact ⟨key, st1, hres, by simpa using hflag, h.symm⟩
  · intro s stopRaises startRaises
    cases stopRaises <;> cases startRaises <;> rfl

/-- C3 witness: a call arriving while the restarting intent is set (and
the owned process alive with the query unreachable) is refused as
already-restarting. -/
theorem C3_witness :
    public_restart ⟨true, false, none⟩ 0 false (Except.ok true)
      = Except.ok (RestartResult.alreadyRestarting, ⟨true, false, none⟩) :=
  (C3_restart_intent ⟨true, false, none⟩ 0 false (Except.ok true)).1 "restarting"
    ⟨true, false, none⟩ rfl rfl

/-- C4: when the resolved status is not "off" (it is fully_loaded,
starting, restarting or stopping) the start call returns an
already-active refusal and does not spawn; independently the spawn
routine refuses to create a second process while an owned live process
exists; hence a second start call made while the first call's process is
alive is refused with an already-active outcome and spawns nothing. -/
theorem C4_start_idempotent (st : PanelState) (now : Nat) (q : Bool)
    (al : Except Unit Bool) :
    (∀ key st1, public_status_key st now true q al = Except.ok (key, st1) →
        (key = "fully_loaded" ∨ key = "starting" ∨ key = "restarting"
          ∨ key = "stopping") →
        ∀ al2 script, public_start st now q al al2 script
          = Except.ok (StartResult.alreadyActive key
              (if key == "stopping" then 302 else 400), st1, false))
    ∧ (∀ script, start_server_process true script = Except.ok false)
    ∧ (∀ script, ∃ key code st1,
        public_start st now q (Except.ok true) true script
          = Except.ok (StartResult.alreadyActive key code, st1, false)) := by
  refine ⟨?_, fun script => rfl, ?_⟩
  · intro key st1 h hkey al2 script
    unfold public_start
    rw [h]
    dsimp only
    have hmem : (key == "fully_loaded" || key == "starting" || key == "restarting"
        || key == "stopping") = true := by
      rcases hkey with h1 | h1 | h1 | h1 <;> subst h1 <;> rfl
    rw [if_pos hmem]
  · intro script
    obtain ⟨key, st1, hres, hmem⟩ := status_key_of_alive st now q
    refine ⟨key, (if key == "stopping" then 302 else 400), st1, ?_⟩
    unfold public_start
    rw [hres]
    dsimp only
    rw [if_pos hmem]

/-- C4 witness: a second start issued while the owned process is alive
but the query protocol is not yet reachable is refused as already
starting, without spawning. -/
theorem C4_witness :
    public_start ⟨false, false, none⟩ 0 false (Except.ok true) true true
      = Except.ok (StartResult.alreadyActive "starting"
          (if "starting" == "stopping" then 302 else 400),
        ⟨false, false, none⟩, false) :=
  (C4_start_idempotent ⟨false, false, none⟩ 0 false (Except.ok true)).1 "starting"
    ⟨false, false, none⟩ rfl (Or.inr (Or.inl rfl)) true true
